import Mathlib

/-!
Verification of the CitiSense event-popularity extractor (`main.py`).

Strings are modelled as `List Char`.  Python's `lower`, substring
containment (`in`), whitespace `split`, `rstrip` and slicing are embedded
directly; note that in Python the empty string is a substring of every
string, which `strIn` reproduces.
-/

namespace Citisense

/-- Python's `needle in haystack` substring test.  The empty needle is
contained in every haystack, as in Python. -/
def strIn (needle : List Char) : List Char → Bool
  | [] => needle.isEmpty
  | c :: rest => needle.isPrefixOf (c :: rest) || strIn needle rest

/-- Python's `str.lower()` (ASCII case mapping, which covers every string
appearing in this development). -/
def pyLower (s : List Char) : List Char := s.map Char.toLower

/-- Helper for `pySplit`: accumulates the current word (reversed). -/
def pySplitAux : List Char → List Char → List (List Char)
  | [], acc => if acc.isEmpty then [] else [acc.reverse]
  | c :: rest, acc =>
    if c.isWhitespace then
      if acc.isEmpty then pySplitAux rest [] else acc.reverse :: pySplitAux rest []
    else pySplitAux rest (c :: acc)

/-- Python's `str.split()` with no argument: split on runs of whitespace,
dropping empty words. -/
def pySplit (s : List Char) : List (List Char) := pySplitAux s []

/-- The fixed list of event-indicative terms from `calculate_relevance_score`. -/
def event_terms : List (List Char) :=
  ["festival", "event", "celebration", "party", "concert", "show",
   "tour", "live", "performance"].map String.toList

/-- The `score += 35` loop of `calculate_relevance_score`: 35 points for
each keyword word that occurs in the lowercased title. -/
def wordMatchScore (title_lower : List Char) : List (List Char) → Int
  | [] => 0
  | w :: ws => (if strIn w title_lower then 35 else 0) + wordMatchScore title_lower ws

/-- The score accumulated by `calculate_relevance_score` before the final
`max(0, min(score, 100))` clamp: exact-keyword bonus, per-word bonus,
event-term bonus. -/
def relevance_raw (title keyword : List Char) : Int :=
  let title_lower := pyLower title
  let keyword_lower := pyLower keyword
  (if strIn keyword_lower title_lower then 100 else 0)
    + wordMatchScore title_lower (pySplit keyword_lower)
    + (if event_terms.any (fun t => strIn t title_lower) then 20 else 0)

/-- `calculate_relevance_score(title, keyword)` from `main.py`. -/
def calculate_relevance_score (title keyword : List Char) : Int :=
  max 0 (min (relevance_raw title keyword) 100)

example : calculate_relevance_score "Taylor Swift Concert".toList "taylor swift".toList = 100 := by decide
example : calculate_relevance_score "".toList "".toList = 100 := by decide
example : calculate_relevance_score "hello".toList "".toList = 100 := by decide
example : calculate_relevance_score "abc".toList "xyz".toList = 0 := by decide

/-!
## Discussion-platform adapter (`fetch_reddit_mentions`)

The praw search call is the I/O boundary: the embedding takes the outcome
of `reddit.subreddit(...).search(...)` as an `Except` value (an exception,
or the list of fetched submissions), plus a flag for whether credentials
and the praw library are available.  Everything after that point in
`fetch_reddit_mentions` is embedded directly.
-/

/-- One praw submission as consumed by `fetch_reddit_mentions`: the fields
the adapter reads.  `author` is `none` for a deleted/unknown author. -/
structure Submission where
  title : List Char
  subreddit : List Char
  author : Option (List Char)
  score : Int
  num_comments : Nat
  created_utc : Int
  permalink : List Char
deriving DecidableEq, Repr

/-- One entry of `detailed_posts` in `fetch_reddit_mentions`.  The
`created_date` key (a locale formatting of `created_utc`, display only)
is not modelled. -/
structure RedditPost where
  title : List Char
  subreddit : List Char
  author : List Char
  score : Int
  num_comments : Nat
  created_utc : Int
  url : List Char
  relevance_score : Int
  in_date_range : Bool
deriving DecidableEq, Repr

/-- The dict returned by `fetch_reddit_mentions`.  Keys that only some of
the return statements carry are `Option`s (`none` = key absent). -/
structure RedditResult where
  count : Nat
  posts : List RedditPost
  in_date_range : Nat
  source : List Char
  total_posts_found : Option Nat
  posts_in_date_range : Option Nat
  relevance_threshold : Option Nat
  error : Option (List Char)
deriving DecidableEq, Repr

/-- The `detailed_posts.append(\x7b...\x7d)` body of `fetch_reddit_mentions`. -/
def mkRedditPost (keyword : List Char) (start_ts end_ts : Int) (s : Submission) : RedditPost :=
  { title := s.title
    subreddit := s.subreddit
    author := match s.author with
      | some a => a
      | none => "[deleted]".toList
    score := s.score
    num_comments := s.num_comments
    created_utc := s.created_utc
    url := "https://reddit.com".toList ++ s.permalink
    relevance_score := calculate_relevance_score s.title keyword
    in_date_range := decide (start_ts ≤ s.created_utc ∧ s.created_utc ≤ end_ts) }

/-- The `return` dict at the end of `fetch_reddit_mentions` when no API is
available; the caught-exception path falls through to it as well.  It has
no `error`, `total_posts_found`, `posts_in_date_range` or
`relevance_threshold` key. -/
def noApiResult : RedditResult :=
  { count := 0, posts := [], in_date_range := 0, source := "no_api".toList
    total_posts_found := none, posts_in_date_range := none
    relevance_threshold := none, error := none }

/-- `fetch_reddit_mentions(keyword, start_ts, end_ts)` from `main.py`.
`creds` is `reddit_client_id and reddit_client_secret and praw`;
`searchResult` is the outcome of the praw connection and search call. -/
def fetch_reddit_mentions (keyword : List Char) (start_ts end_ts : Int) :
    Bool → Except (List Char) (List Submission) → RedditResult
  | false, _ => noApiResult
  | true, .error _ => noApiResult
  | true, .ok submissions =>
      let in_range_submissions := submissions.filter
        (fun s => decide (start_ts ≤ s.created_utc ∧ s.created_utc ≤ end_ts))
      let filtered_count := in_range_submissions.length
      let posts_to_return :=
        if in_range_submissions.isEmpty then submissions.take 10 else in_range_submissions
      let detailed_posts := posts_to_return.map (mkRedditPost keyword start_ts end_ts)
      if filtered_count = 0 then
        { count := 0, posts := [], in_date_range := 0, source := "reddit_api".toList
          total_posts_found := some detailed_posts.length, posts_in_date_range := none
          relevance_threshold := some 90, error := none }
      else
        let posts_in_range := detailed_posts.filter (fun p => p.in_date_range)
        let high_relevance_posts_in_range :=
          posts_in_range.filter (fun p => decide (90 ≤ p.relevance_score))
        { count := high_relevance_posts_in_range.length
          posts := high_relevance_posts_in_range
          in_date_range := high_relevance_posts_in_range.length
          source := "reddit_api".toList
          total_posts_found := some detailed_posts.length
          posts_in_date_range := some posts_in_range.length
          relevance_threshold := some 90, error := none }

/-- The candidate posts eligible for inclusion by `fetch_reddit_mentions`:
the detailed records whose timestamp lies in the requested range (empty in
the no-API, error and zero-in-range paths).  Mirrors the control flow of
`fetch_reddit_mentions`. -/
def redditEligible (keyword : List Char) (start_ts end_ts : Int) :
    Bool → Except (List Char) (List Submission) → List RedditPost
  | false, _ => []
  | true, .error _ => []
  | true, .ok submissions =>
      let in_range_submissions := submissions.filter
        (fun s => decide (start_ts ≤ s.created_utc ∧ s.created_utc ≤ end_ts))
      let posts_to_return :=
        if in_range_submissions.isEmpty then submissions.take 10 else in_range_submissions
      let detailed_posts := posts_to_return.map (mkRedditPost keyword start_ts end_ts)
      if in_range_submissions.length = 0 then []
      else detailed_posts.filter (fun p => p.in_date_range)

/-!
## Event-listing adapter (`fetch_eventbrite_scrape`)

HTTP and BeautifulSoup are the I/O boundary.  Each URL attempt either
fails (an exception, or a 404, both of which make the loop `continue`) or
yields a parsed page.  A page is represented by what the adapter reads
from it: for each of the ten CSS selectors, the list of matched cards
(with their already-extracted title/date/location/link texts), and the
list of fallback `/e/` links.  The card-field extraction itself
(`find`, `get_text`) belongs to the I/O layer; the per-card record
construction, link normalization, truncation, scoring, filtering and
result assembly are embedded directly.
-/

/-- One entry of the `events` list in `fetch_eventbrite_scrape`
(`event_data`). -/
structure EbEvent where
  title : List Char
  date_text : List Char
  location : List Char
  link : List Char
  relevance_score : Int
  source : List Char
deriving DecidableEq, Repr

/-- The dict returned by `fetch_eventbrite_scrape`.  Keys that only some
return statements carry are `Option`s (`none` = key absent);
`selector_used` is the index of the winning selector in the fixed
selector list. -/
structure EbResult where
  count : Nat
  events : List EbEvent
  source : List Char
  selector_used : Option Nat
  total_events_found : Option Nat
  relevance_threshold : Option Nat
  error : Option (List Char)
deriving DecidableEq, Repr

/-- One matched card, with the texts the adapter extracts from it:
`title` is the result of the title lookup (or the card-text fallback
already cut to 100 characters), `link` the raw `href` (empty if no link
element was found). -/
structure RawCard where
  title : List Char
  date_text : List Char
  location : List Char
  link : List Char
deriving DecidableEq, Repr

/-- One fallback event link: its raw `href` and its stripped text. -/
structure RawLink where
  href : List Char
  text : List Char
deriving DecidableEq, Repr

/-- What `fetch_eventbrite_scrape` reads from one successfully fetched
page: matched cards per selector (in the fixed selector order), and the
fallback `/e/` links. -/
structure Page where
  selectorCards : List (List RawCard)
  eventLinks : List RawLink
deriving DecidableEq, Repr

/-- Outcome of one URL attempt: an exception or a 404 (the loop moves on),
or a parsed page. -/
inductive UrlOutcome where
  | err : UrlOutcome
  | page : Page → UrlOutcome
deriving DecidableEq, Repr

/-- One event record built from a card in the selector branch of
`fetch_eventbrite_scrape`: relative links are made absolute, text fields
truncated, the title scored against the keyword (before truncation, as in
the source). -/
def mkEbEvent (keyword : List Char) (c : RawCard) : EbEvent :=
  let link :=
    if ¬ c.link.isEmpty ∧ ¬ ("http".toList.isPrefixOf c.link) then
      "https://www.eventbrite.com".toList ++ c.link
    else c.link
  { title := c.title.take 200
    date_text := c.date_text.take 100
    location := c.location.take 100
    link := link
    relevance_score := calculate_relevance_score c.title keyword
    source := "eventbrite_scrape".toList }

/-- One event record built from a fallback link (0-based position `k` in
the link list): `href` is prefixed whenever it does not start with
`http` (even when empty), the title falls back to `Event k+1` when the
link text is empty. -/
def mkLinkEvent (keyword : List Char) (k : Nat) (l : RawLink) : EbEvent :=
  let href :=
    if ¬ ("http".toList.isPrefixOf l.href) then
      "https://www.eventbrite.com".toList ++ l.href
    else l.href
  let title :=
    if l.text.isEmpty then "Event ".toList ++ Nat.toDigits 10 (k + 1) else l.text
  { title := title.take 200
    date_text := []
    location := []
    link := href
    relevance_score := calculate_relevance_score title keyword
    source := "eventbrite_links".toList }

/-- The first selector (by index) whose card list is non-empty. -/
def firstNonemptySelector : List (List RawCard) → Option (Nat × List RawCard)
  | [] => none
  | cs :: rest =>
    if cs.isEmpty then (firstNonemptySelector rest).map (fun p => (p.1 + 1, p.2))
    else some (0, cs)

/-- Extraction attempt on one fetched page: the winning selector's cards
(mapped to event records), or the fallback links, or nothing (the URL
loop then continues).  Returns the pre-filter event list, the `source`
tag and the winning selector index, if any. -/
def tryPageRaw (keyword : List Char) (p : Page) :
    Option (List EbEvent × List Char × Option Nat) :=
  match firstNonemptySelector p.selectorCards with
  | some (j, cards) => some (cards.map (mkEbEvent keyword), "eventbrite_scrape".toList, some j)
  | none =>
    if p.eventLinks.isEmpty then none
    else some ((p.eventLinks.enum.map fun q => mkLinkEvent keyword q.1 q.2),
      "eventbrite_links".toList, none)

/-- Result assembly shared by both success returns of
`fetch_eventbrite_scrape`: filter to relevance ≥ 90, report the filtered
list, its length and the pre-filter total. -/
def ebFromEvents (events : List EbEvent) (src : List Char) (sel : Option Nat) : EbResult :=
  let high_relevance_events := events.filter (fun e => decide (90 ≤ e.relevance_score))
  { count := high_relevance_events.length
    events := high_relevance_events
    source := src
    selector_used := sel
    total_events_found := some events.length
    relevance_threshold := some 90
    error := none }

/-- `fetch_eventbrite_scrape(keyword)` from `main.py`, over the outcomes
of its URL attempts (the real code tries two URLs). -/
def fetch_eventbrite_scrape (keyword : List Char) : List UrlOutcome → EbResult
  | [] =>
    { count := 0, events := [], source := "eventbrite_scrape".toList
      selector_used := none, total_events_found := none
      relevance_threshold := none, error := some "No events found".toList }
  | .err :: rest => fetch_eventbrite_scrape keyword rest
  | .page p :: rest =>
    match tryPageRaw keyword p with
    | some (events, src, sel) => ebFromEvents events src sel
    | none => fetch_eventbrite_scrape keyword rest

/-- The candidate events eligible for inclusion by
`fetch_eventbrite_scrape`: the pre-filter event list of the first page
attempt that extracts anything (empty when every attempt fails).  Mirrors
the control flow of `fetch_eventbrite_scrape`. -/
def ebEligible (keyword : List Char) : List UrlOutcome → List EbEvent
  | [] => []
  | .err :: rest => ebEligible keyword rest
  | .page p :: rest =>
    match tryPageRaw keyword p with
    | some (events, _, _) => events
    | none => ebEligible keyword rest

/-!
## Aggregator (`main`)

`main` wraps each adapter call in `try/except`.  The embedding takes the
outcome of each call as an `Except` value and embeds the post-fetch logic
of `main`: the per-source count/data variables, the summary values and
`search_metadata.sources_successful`.
-/

/-- The dict returned by `fetch_google_trends_score` on success.  Only
`max_score` is consumed by `main`; the remaining keys (`avg_score`,
`min_score`, `trend_direction`, `total_days`, `timeframe`, `daily_data`)
are carried opaquely by the aggregator and not modelled. -/
structure GtSuccess where
  max_score : Int
deriving DecidableEq, Repr

/-- The value of `main`'s `gt_data` variable when it is a dict: either the
success dict of `fetch_google_trends_score`, or the error dict
`\x7b"error": str(e), "max_score": None\x7d` built in `main`'s handler. -/
inductive GtData where
  | success : GtSuccess → GtData
  | errorDict : List Char → GtData
deriving DecidableEq, Repr

/-- `gt_data.get("max_score")` for a dict-valued `gt_data`. -/
def GtData.max_score : GtData → Option Int
  | .success d => some d.max_score
  | .errorDict _ => none

/-- `main`'s `eb_count` variable: the fetched dict's `count`, or `None`
when the Eventbrite fetch raised. -/
def eb_count_of : Except (List Char) EbResult → Option Nat
  | .ok d => some d.count
  | .error _ => none

/-- `main`'s `reddit_count` variable: the fetched dict's `count`, or `0`
(not `None`) when the Reddit fetch raised. -/
def reddit_count_of : Except (List Char) RedditResult → Option Nat
  | .ok d => some d.count
  | .error _ => some 0

/-- `main`'s `gt_data` variable: the success dict, `None` when
`fetch_google_trends_score` returned `None`, or the error dict (with
`max_score = None`) when the call raised. -/
def gt_data_of : Except (List Char) (Option GtSuccess) → Option GtData
  | .ok (some d) => some (GtData.success d)
  | .ok none => none
  | .error e => some (GtData.errorDict e)

/-- `summary.google_trends_score` in the output report:
`gt_data.get("max_score") if isinstance(gt_data, dict) else gt_data`. -/
def summary_google_trends_score (gt : Except (List Char) (Option GtSuccess)) : Option Int :=
  match gt_data_of gt with
  | some g => g.max_score
  | none => none

/-- `search_metadata.sources_successful` in the output report: the list
comprehension over `eb_count is not None`, `reddit_count is not None`,
`gt_data is not None`. -/
def sources_successful (eb : Except (List Char) EbResult)
    (rd : Except (List Char) RedditResult)
    (gt : Except (List Char) (Option GtSuccess)) : List (List Char) :=
  (([("eventbrite".toList, (eb_count_of eb).isSome),
     ("reddit".toList, (reddit_count_of rd).isSome),
     ("google_trends".toList, (gt_data_of gt).isSome)].filter
       (fun p => p.2)).map (fun p => p.1))

/-!
## Date parsing (`main`, lines 490-497) and filename generation

`datetime` values are modelled as calendar tuples.  `fromisoformat` is
modelled for the date-only `YYYY-MM-DD` inputs the CLI contract names
(`Option` models the `ValueError` abort on malformed input), and
`timedelta(days=1)` as calendar day addition.
-/

/-- A `datetime.datetime` value (naive, second precision — the precision
`main` uses). -/
structure PyDateTime where
  year : Nat
  month : Nat
  day : Nat
  hour : Nat
  minute : Nat
  second : Nat
deriving DecidableEq, Repr

/-- Gregorian leap-year test. -/
def isLeapYear (y : Nat) : Bool := (y % 4 = 0 ∧ y % 100 ≠ 0) ∨ y % 400 = 0

/-- Days in a month of the Gregorian calendar. -/
def daysInMonth (y m : Nat) : Nat :=
  if m = 2 then (if isLeapYear y then 29 else 28)
  else if m = 4 ∨ m = 6 ∨ m = 9 ∨ m = 11 then 30
  else 31

/-- Numeric value of a decimal digit character. -/
def digitVal (c : Char) : Nat := c.toNat - 48

/-- `datetime.fromisoformat` modelled on date-only `YYYY-MM-DD` strings:
midnight of the given calendar date, `none` (= `ValueError`) otherwise. -/
def fromisoformat (s : List Char) : Option PyDateTime :=
  match s with
  | [y1, y2, y3, y4, h1, m1, m2, h2, d1, d2] =>
    if h1 = '-' ∧ h2 = '-' ∧ [y1, y2, y3, y4, m1, m2, d1, d2].all Char.isDigit then
      let y := 1000 * digitVal y1 + 100 * digitVal y2 + 10 * digitVal y3 + digitVal y4
      let m := 10 * digitVal m1 + digitVal m2
      let d := 10 * digitVal d1 + digitVal d2
      if 1 ≤ m ∧ m ≤ 12 ∧ 1 ≤ d ∧ d ≤ daysInMonth y m then
        some ⟨y, m, d, 0, 0, 0⟩
      else none
    else none
  | _ => none

/-- `dt + timedelta(days=1)` on calendar dates. -/
def addOneDay (t : PyDateTime) : PyDateTime :=
  if t.day < daysInMonth t.year t.month then
    { t with day := t.day + 1 }
  else if t.month < 12 then
    { t with month := t.month + 1, day := 1 }
  else
    { t with year := t.year + 1, month := 1, day := 1 }

/-- Python's `str.split(sep)` for a one-character separator (always
returns at least one part). -/
def pySplitOn (sep : Char) : List Char → List Char → List (List Char)
  | [], acc => [acc.reverse]
  | c :: rest, acc =>
    if c = sep then acc.reverse :: pySplitOn sep rest []
    else pySplitOn sep rest (c :: acc)

/-- The date-argument parsing in `main`: a comma means an explicit
`start,end` pair (each side through `fromisoformat`), otherwise a single
date whose end is `start + timedelta(days=1)`.  `none` models the
uncaught `ValueError` abort. -/
def parse_date_input (s : List Char) : Option (PyDateTime × PyDateTime) :=
  if s.contains ',' then
    match (pySplitOn ',' s []).get? 0, (pySplitOn ',' s []).get? 1 with
    | some p0, some p1 =>
      match fromisoformat p0, fromisoformat p1 with
      | some a, some b => some (a, b)
      | _, _ => none
    | _, _ => none
  else
    (fromisoformat s).map (fun d => (d, addOneDay d))

/-- Python's `str.rstrip()`: drop trailing whitespace. -/
def pyRstrip (s : List Char) : List Char :=
  (s.reverse.dropWhile Char.isWhitespace).reverse

/-- A natural number in decimal, zero-padded to width `w` (the behaviour
of `strftime`'s numeric directives). -/
def padZero (w : Nat) (n : Nat) : List Char :=
  let ds := Nat.toDigits 10 n
  List.replicate (w - ds.length) '0' ++ ds

/-- `current_time.strftime("%Y%m%d_%H%M%S")`. -/
def formatTimestamp (t : PyDateTime) : List Char :=
  padZero 4 t.year ++ padZero 2 t.month ++ padZero 2 t.day ++ "_".toList
    ++ padZero 2 t.hour ++ padZero 2 t.minute ++ padZero 2 t.second

/-- `create_output_filename(keyword, current_time)` from `main.py`: keep
alphanumerics, spaces, hyphens and underscores; strip trailing
whitespace; spaces to underscores; lowercase; append the timestamp and
the `_search_output.json` suffix. -/
def create_output_filename (keyword : List Char) (current_time : PyDateTime) : List Char :=
  let search_name := keyword.filter
    (fun c => c.isAlphanum ∨ c = ' ' ∨ c = '-' ∨ c = '_')
  let search_name := pyLower ((pyRstrip search_name).map (fun c => if c = ' ' then '_' else c))
  search_name ++ "_".toList ++ formatTimestamp current_time
    ++ "_search_output.json".toList

/-!
## Theorems
-/

/-- The empty needle is a substring of every haystack (Python's
`"" in s`). -/
theorem strIn_nil (h : List Char) : strIn [] h = true := by
  cases h with
  | nil => rfl
  | cons c rest => simp [strIn, List.isPrefixOf]

/-- The per-word bonus is never negative. -/
theorem wordMatchScore_nonneg (t : List Char) : ∀ ws, 0 ≤ wordMatchScore t ws
  | [] => le_refl 0
  | w :: ws => by
    have ih := wordMatchScore_nonneg t ws
    unfold wordMatchScore
    split <;> omega

/-- C5: `calculate_relevance_score` always returns a value in the closed
range [0, 100], for every text/keyword pair including empty strings. -/
theorem calculate_relevance_score_bounds (title keyword : List Char) :
    0 ≤ calculate_relevance_score title keyword ∧
    calculate_relevance_score title keyword ≤ 100 := by
  unfold calculate_relevance_score
  constructor <;> omega

/-- C6: whenever the lowercased keyword occurs as a substring of the
lowercased title (the claim adds that the keyword is non-empty), the
pre-clamp score is at least 100, so the returned score is exactly 100 and
passes the threshold of 90. -/
theorem substring_scores_100 (title keyword : List Char)
    (_hkw : keyword ≠ [])
    (hsub : strIn (pyLower keyword) (pyLower title) = true) :
    100 ≤ relevance_raw title keyword ∧
    calculate_relevance_score title keyword = 100 ∧
    90 ≤ calculate_relevance_score title keyword := by
  have hw := wordMatchScore_nonneg (pyLower title) (pySplit (pyLower keyword))
  have h100 : 100 ≤ relevance_raw title keyword := by
    unfold relevance_raw
    simp only [hsub, if_true]
    split <;> omega
  refine ⟨h100, ?_, ?_⟩ <;> (unfold calculate_relevance_score; omega)

/-- Witness for C6 at title "Taylor Swift live", keyword "swift". -/
theorem substring_scores_100_witness :
    "swift".toList ≠ ([] : List Char) ∧
    strIn (pyLower "swift".toList) (pyLower "Taylor Swift live".toList) = true ∧
    (100 ≤ relevance_raw "Taylor Swift live".toList "swift".toList ∧
      calculate_relevance_score "Taylor Swift live".toList "swift".toList = 100 ∧
      90 ≤ calculate_relevance_score "Taylor Swift live".toList "swift".toList) :=
  ⟨by decide, by decide,
    substring_scores_100 "Taylor Swift live".toList "swift".toList (by decide) (by decide)⟩

/-- C2, counterexample: with the empty keyword and title "hello", no
event-indicative term occurs, so a score derived only from step 4 would
be 0 — yet the returned score is 100, because in Python the empty string
is a substring of every string and step 2 fires. -/
theorem empty_keyword_cex :
    calculate_relevance_score "hello".toList [] = 100 ∧
    (if event_terms.any (fun t => strIn t (pyLower "hello".toList)) then (20 : Int) else 0) = 0 := by
  decide

/-- C2, amended: the empty keyword always yields score exactly 100 (the
empty string matches as a substring, so step 2 adds 100; step 3 adds
nothing since the keyword has no words; the clamp caps the total at
100). -/
theorem empty_keyword_scores_100 (title : List Char) :
    calculate_relevance_score title [] = 100 := by
  have h1 := strIn_nil (pyLower title)
  have hval : relevance_raw title [] =
      100 + (if event_terms.any (fun t => strIn t (pyLower title)) then (20 : Int) else 0) := by
    unfold relevance_raw
    simp only [show pyLower [] = [] from rfl, h1, if_true,
      show pySplit [] = [] from rfl,
      show ∀ t, wordMatchScore t [] = 0 from fun _ => rfl]
    omega
  unfold calculate_relevance_score
  rw [hval]
  split <;> decide

/-- C3, counterexample: when the platform search call raises (credentials
present), `fetch_reddit_mentions` returns the no-API dict: `count=0` and
empty posts, but tagged `source="no_api"` with NO error field — the
claimed non-empty `error` field does not exist. -/
theorem reddit_error_field_cex :
    (fetch_reddit_mentions "x".toList 0 1 true (Except.error "boom".toList)).error = none ∧
    (fetch_reddit_mentions "x".toList 0 1 true (Except.error "boom".toList)).count = 0 ∧
    (fetch_reddit_mentions "x".toList 0 1 true (Except.error "boom".toList)).posts = [] := by
  decide

/-- C3, amended: an error from the platform call is caught inside
`fetch_reddit_mentions` (it never propagates): the adapter returns the
same dict as the no-credentials path — `count=0`, empty posts,
`source="no_api"`, and no `error` field. -/
theorem reddit_error_caught (keyword : List Char) (start_ts end_ts : Int) (msg : List Char) :
    (fetch_reddit_mentions keyword start_ts end_ts true (Except.error msg)).count = 0 ∧
    (fetch_reddit_mentions keyword start_ts end_ts true (Except.error msg)).posts = [] ∧
    (fetch_reddit_mentions keyword start_ts end_ts true (Except.error msg)).source
      = "no_api".toList ∧
    (fetch_reddit_mentions keyword start_ts end_ts true (Except.error msg)).error = none :=
  ⟨rfl, rfl, rfl, rfl⟩

/-- C4: with credentials present, if no fetched submission's creation
timestamp lies in `[start_ts, end_ts]`, the adapter returns `count=0`
with an empty posts list — whatever the off-range submissions are and
however high they score. -/
theorem reddit_zero_in_range_empty (keyword : List Char) (start_ts end_ts : Int)
    (subs : List Submission)
    (h : (subs.filter
      (fun s => decide (start_ts ≤ s.created_utc ∧ s.created_utc ≤ end_ts))).length = 0) :
    (fetch_reddit_mentions keyword start_ts end_ts true (Except.ok subs)).count = 0 ∧
    (fetch_reddit_mentions keyword start_ts end_ts true (Except.ok subs)).posts = [] := by
  have h0 : subs.filter
      (fun s => decide (start_ts ≤ s.created_utc ∧ s.created_utc ≤ end_ts)) = [] :=
    List.length_eq_zero.mp h
  simp only [fetch_reddit_mentions]
  rw [h0]
  simp

/-- Witness for C4: one off-range submission titled "party" (relevance
100 ≥ 90, timestamp 50 outside [0, 10]) is still not substituted in. -/
theorem reddit_zero_in_range_empty_witness :
    (([⟨"party".toList, "uk".toList, some "bob".toList, 1, 2, 50, "/p".toList⟩] :
        List Submission).filter
      (fun s => decide ((0 : Int) ≤ s.created_utc ∧ s.created_utc ≤ 10))).length = 0 ∧
    90 ≤ calculate_relevance_score "party".toList "party".toList ∧
    ((fetch_reddit_mentions "party".toList 0 10 true
        (Except.ok [⟨"party".toList, "uk".toList, some "bob".toList, 1, 2, 50, "/p".toList⟩])).count = 0 ∧
      (fetch_reddit_mentions "party".toList 0 10 true
        (Except.ok [⟨"party".toList, "uk".toList, some "bob".toList, 1, 2, 50, "/p".toList⟩])).posts = []) :=
  ⟨by decide, by decide,
    reddit_zero_in_range_empty "party".toList 0 10
      [⟨"party".toList, "uk".toList, some "bob".toList, 1, 2, 50, "/p".toList⟩] (by decide)⟩

/-- C10: in the zero-in-range branch, the reported `total_posts_found` is
the length of the detailed records built from the first 10 fetched
submissions, i.e. `min 10 (number fetched)` — which understates the true
total whenever more than 10 off-range submissions were fetched. -/
theorem reddit_zero_in_range_total (keyword : List Char) (start_ts end_ts : Int)
    (subs : List Submission)
    (h : (subs.filter
      (fun s => decide (start_ts ≤ s.created_utc ∧ s.created_utc ≤ end_ts))).length = 0) :
    (fetch_reddit_mentions keyword start_ts end_ts true (Except.ok subs)).total_posts_found
      = some (min 10 subs.length) ∧
    (10 < subs.length → min 10 subs.length < subs.length) := by
  have h0 : subs.filter
      (fun s => decide (start_ts ≤ s.created_utc ∧ s.created_utc ≤ end_ts)) = [] :=
    List.length_eq_zero.mp h
  constructor
  · simp only [fetch_reddit_mentions]
    rw [h0]
    simp [List.length_take]
  · intro hlen
    omega

/-- Witness for C10: 11 identical off-range submissions; the branch
reports `total_posts_found = 10`, not 11. -/
theorem reddit_zero_in_range_total_witness :
    ((List.replicate 11 (⟨"a".toList, "uk".toList, none, 0, 0, 50, "/p".toList⟩ : Submission)).filter
      (fun s => decide ((0 : Int) ≤ s.created_utc ∧ s.created_utc ≤ 10))).length = 0 ∧
    ((fetch_reddit_mentions "q".toList 0 10 true
        (Except.ok (List.replicate 11
          (⟨"a".toList, "uk".toList, none, 0, 0, 50, "/p".toList⟩ : Submission)))).total_posts_found
      = some (min 10 (List.replicate 11
          (⟨"a".toList, "uk".toList, none, 0, 0, 50, "/p".toList⟩ : Submission)).length) ∧
      (10 < (List.replicate 11
          (⟨"a".toList, "uk".toList, none, 0, 0, 50, "/p".toList⟩ : Submission)).length →
        min 10 (List.replicate 11
          (⟨"a".toList, "uk".toList, none, 0, 0, 50, "/p".toList⟩ : Submission)).length
          < (List.replicate 11
          (⟨"a".toList, "uk".toList, none, 0, 0, 50, "/p".toList⟩ : Submission)).length)) :=
  ⟨by decide,
    reddit_zero_in_range_total "q".toList 0 10
      (List.replicate 11 (⟨"a".toList, "uk".toList, none, 0, 0, 50, "/p".toList⟩ : Submission))
      (by decide)⟩

/-- The event-listing invariant, by induction over the URL attempts. -/
theorem eb_invariant (keyword : List Char) : ∀ outs : List UrlOutcome,
    (fetch_eventbrite_scrape keyword outs).count
      = (fetch_eventbrite_scrape keyword outs).events.length ∧
    (fetch_eventbrite_scrape keyword outs).events
      = (ebEligible keyword outs).filter (fun e => decide (90 ≤ e.relevance_score))
  | [] => by simp [fetch_eventbrite_scrape, ebEligible]
  | .err :: rest => eb_invariant keyword rest
  | .page p :: rest => by
    rcases htp : tryPageRaw keyword p with _ | ⟨events, src, sel⟩
    · have ih := eb_invariant keyword rest
      simp only [fetch_eventbrite_scrape, ebEligible, htp]
      exact ih
    · simp [fetch_eventbrite_scrape, ebEligible, htp, ebFromEvents]

/-- The discussion-platform invariant, by cases on the adapter's paths. -/
theorem reddit_invariant (keyword : List Char) (start_ts end_ts : Int)
    (creds : Bool) (sr : Except (List Char) (List Submission)) :
    (fetch_reddit_mentions keyword start_ts end_ts creds sr).count
      = (fetch_reddit_mentions keyword start_ts end_ts creds sr).posts.length ∧
    (fetch_reddit_mentions keyword start_ts end_ts creds sr).posts
      = (redditEligible keyword start_ts end_ts creds sr).filter
          (fun p => decide (90 ≤ p.relevance_score)) := by
  cases creds with
  | false => exact ⟨rfl, rfl⟩
  | true =>
    cases sr with
    | error e => exact ⟨rfl, rfl⟩
    | ok subs =>
      simp only [fetch_reddit_mentions, redditEligible]
      by_cases h : (subs.filter
        (fun s => decide (start_ts ≤ s.created_utc ∧ s.created_utc ≤ end_ts))).length = 0
      · rw [if_pos h, if_pos h]
        exact ⟨rfl, rfl⟩
      · rw [if_neg h, if_neg h]
        exact ⟨rfl, rfl⟩

/-- C7: for both the event-listing and the discussion adapter, the
returned `count` equals the number of returned items, which is exactly
the eligible extracted candidates filtered to relevance ≥ 90. -/
theorem count_invariant :
    (∀ (keyword : List Char) (outs : List UrlOutcome),
      (fetch_eventbrite_scrape keyword outs).count
        = (fetch_eventbrite_scrape keyword outs).events.length ∧
      (fetch_eventbrite_scrape keyword outs).events
        = (ebEligible keyword outs).filter (fun e => decide (90 ≤ e.relevance_score))) ∧
    (∀ (keyword : List Char) (start_ts end_ts : Int) (creds : Bool)
        (sr : Except (List Char) (List Submission)),
      (fetch_reddit_mentions keyword start_ts end_ts creds sr).count
        = (fetch_reddit_mentions keyword start_ts end_ts creds sr).posts.length ∧
      (fetch_reddit_mentions keyword start_ts end_ts creds sr).posts
        = (redditEligible keyword start_ts end_ts creds sr).filter
            (fun p => decide (90 ≤ p.relevance_score))) :=
  ⟨fun keyword outs => eb_invariant keyword outs,
    fun keyword start_ts end_ts creds sr =>
      reddit_invariant keyword start_ts end_ts creds sr⟩

/-- C1, counterexample: in a run where all three fetches raise,
`sources_successful` still lists reddit (its count is set to 0, not None)
and google_trends (its `gt_data` is the error dict, not None) — although
the trends summary score is None.  This contradicts both "exactly those
whose count/score is not None" and "errored sources are excluded". -/
theorem sources_successful_cex :
    sources_successful (Except.error "eb down".toList) (Except.error "rd down".toList)
        (Except.error "gt down".toList)
      = ["reddit".toList, "google_trends".toList] ∧
    summary_google_trends_score (Except.error "gt down".toList) = none := by
  decide

/-- C1, amended: `sources_successful` contains eventbrite iff the
event-listing fetch did not raise; it always contains reddit (an errored
reddit fetch yields `reddit_count = 0`, which is not None); and it
contains google_trends iff `gt_data` is not None — i.e. unless the trend
fetch returned without data — so a trend fetch that raised is still
listed (its summary score being None notwithstanding). -/
theorem sources_successful_amended (eb : Except (List Char) EbResult)
    (rd : Except (List Char) RedditResult)
    (gt : Except (List Char) (Option GtSuccess)) :
    ("eventbrite".toList ∈ sources_successful eb rd gt ↔ ∃ d, eb = Except.ok d) ∧
    "reddit".toList ∈ sources_successful eb rd gt ∧
    ("google_trends".toList ∈ sources_successful eb rd gt ↔ gt ≠ Except.ok none) := by
  rcases eb with e1 | d1 <;> rcases rd with e2 | d2 <;> rcases gt with e3 | (_ | d3) <;>
    simp [sources_successful, eb_count_of, reddit_count_of, gt_data_of]

/-- C8: a single ISO date parses to the 24-hour window starting at its
midnight, and a comma-separated pair parses to the two literal bounds. -/
theorem date_parse_examples :
    parse_date_input "2024-05-01".toList =
      some (⟨2024, 5, 1, 0, 0, 0⟩, ⟨2024, 5, 2, 0, 0, 0⟩) ∧
    parse_date_input "2024-05-01,2024-05-10".toList =
      some (⟨2024, 5, 1, 0, 0, 0⟩, ⟨2024, 5, 10, 0, 0, 0⟩) := by
  decide

/-- C9: the output filename for keyword "Taylor Swift!!" generated at
2024-05-01 13:05:09. -/
theorem create_output_filename_example :
    create_output_filename "Taylor Swift!!".toList ⟨2024, 5, 1, 13, 5, 9⟩ =
      "taylor_swift_20240501_130509_search_output.json".toList := by
  decide

end Citisense
